import Mathlib

/-!
Verification of the zksync-telemetry library (matter-labs/zksync-telemetry).

A shallow embedding of `src/properties.rs` and `src/telemetry.rs`:
JSON-like values become an inductive `Value`, the JSON object map becomes an
association list whose `insert` replaces the binding of an existing key in
place and appends a fresh key at the end, the telemetry facade becomes a pure
function returning an outcome together with the trace of collector calls it
made, and the once-cell registry becomes explicit state passing over
`Option Telemetry`.
-/

namespace ZkTelemetry

/-- Model of `serde_json::Value`: a tagged union of null, bool, number,
string, array and object.  Numbers are modelled as integers (the conversions
the library uses go through `Into<serde_json::Number>`, i.e. integer types). -/
inductive Value where
  | null : Value
  | bool (b : Bool) : Value
  | num (n : Int) : Value
  | str (s : String) : Value
  | arr (elems : List Value) : Value
  | obj (entries : List (String × Value)) : Value

/-- Model of map insertion (`serde_json::Map::insert` / `HashMap::insert`):
replace the value bound to `k` if present, otherwise add the binding.
The association-list representation fixes an order, but every claim is stated
through `mapLookup`, which is representation-independent. -/
def mapInsert : List (String × Value) → String → Value → List (String × Value)
  | [], k, v => [(k, v)]
  | (k', v') :: rest, k, v =>
    if k' = k then (k, v) :: rest else (k', v') :: mapInsert rest k v

/-- Model of map lookup (`Map::get`). -/
def mapLookup : List (String × Value) → String → Option Value
  | [], _ => none
  | (k', v') :: rest, k => if k' = k then some v' else mapLookup rest k

/-- Model of `TelemetryProps` (src/properties.rs): a wrapper around a JSON value. -/
structure TelemetryProps where
  inner : Value

namespace TelemetryProps

/-- `TelemetryProps::new`: the empty object. -/
def new : TelemetryProps := ⟨.obj []⟩

/-- `TelemetryProps::from_str` / `from_string`: a bare string root. -/
def from_string (value : String) : TelemetryProps := ⟨.str value⟩

/-- `TelemetryProps::from_number`. -/
def from_number (value : Int) : TelemetryProps := ⟨.num value⟩

/-- `TelemetryProps::from_bool`. -/
def from_bool (value : Bool) : TelemetryProps := ⟨.bool value⟩

/-- `TelemetryProps::from_array`, generic over the `Into<TelemetryProps>`
conversion `conv`: each element is independently converted and the results are
collected in input order. -/
def from_array (conv : α → TelemetryProps) (values : List α) : TelemetryProps :=
  ⟨.arr (values.map (fun v => (conv v).inner))⟩

/-- `TelemetryProps::insert`: no-op on `None`; on `Some props` insert into the
root object, first coercing a non-object root into a fresh object (discarding
it).  The generic `T: Into<TelemetryProps>` argument arrives here already
converted. -/
def insert (self : TelemetryProps) (key : String) (value : Option TelemetryProps) :
    TelemetryProps :=
  match value with
  | some props =>
    match self.inner with
    | .obj m => ⟨.obj (mapInsert m key props.inner)⟩
    | _ => ⟨.obj [(key, props.inner)]⟩
  | none => self

/-- `TelemetryProps::insert_with`: apply the transform, then delegate to `insert`. -/
def insert_with (self : TelemetryProps) (k : String) (v : α)
    (f : α → Option TelemetryProps) : TelemetryProps :=
  self.insert k (f v)

/-- `TelemetryProps::to_inner`. -/
def to_inner (self : TelemetryProps) : Value := self.inner

/-- `TelemetryProps::to_map`: the root object's entries, or `none` when the
root is not an object. -/
def to_map (self : TelemetryProps) : Option (List (String × Value)) :=
  match self.inner with
  | .obj m => some m
  | _ => none

/-- `TelemetryProps::take` (`mem::take`): return the current tree and the
reset builder. -/
def take (self : TelemetryProps) : TelemetryProps × TelemetryProps :=
  (self, new)

end TelemetryProps

/-- The root shapes the spec calls "scalar or array" (materialized non-object). -/
def Value.isScalarOrArray : Value → Bool
  | .bool _ => true
  | .num _ => true
  | .str _ => true
  | .arr _ => true
  | _ => false

/-- Model of `TelemetryError` (src/error.rs, surfaced through src/telemetry.rs):
the variants the facade code produces. -/
inductive TelemetryError where
  | configError (msg : String)
  | sendError (msg : String)

/-- Result of a public facade call, with an explicit constructor for a Rust
panic (`expect`/`unwrap`/`panic!` sites), so panic-freedom is a provable
statement rather than an artifact of totality. -/
inductive Outcome (α : Type) where
  | ok (a : α)
  | err (e : TelemetryError)
  | panicked (msg : String)

/-- Whether an outcome is a panic. -/
def Outcome.isPanicked : Outcome α → Bool
  | .panicked _ => true
  | _ => false

/-- Model of the resolved `TelemetryConfig` (src/config.rs is not under src/;
only the two fields `telemetry.rs` reads are modelled: `enabled` and
`instance_id`). -/
structure TelemetryConfig where
  enabled : Bool
  instance_id : String

/-- Modelled from the external posthog-rs crate (an excluded collaborator in
the spec): the derive_builder-style client options.  `api_key` is the one
required field; the others default. -/
structure PostHogClientOptions where
  api_key : String
  default_distinct_id : Option String
  enable_panic_capturing : Bool
  on_panic_exception_set : Bool

/-- Builder state for `PostHogClientOptionsBuilder`. -/
structure PostHogClientOptionsBuilder where
  api_key : Option String
  default_distinct_id : Option String
  enable_panic_capturing : Option Bool
  on_panic_exception_set : Bool

/-- Modelled from the external posthog-rs crate: `build` fails exactly when
the required `api_key` field was never set. -/
def PostHogClientOptionsBuilder.build (b : PostHogClientOptionsBuilder) :
    Option PostHogClientOptions :=
  match b.api_key with
  | some key =>
    some ⟨key, b.default_distinct_id, b.enable_panic_capturing.getD true,
      b.on_panic_exception_set⟩
  | none => none

/-- Modelled from the external posthog-rs crate: the client handle built from
its options. -/
structure PostHogClient where
  options : PostHogClientOptions

/-- Modelled from the external sentry crate: the guard returned by
`sentry::init`, holding the DSN it was initialized with. -/
structure SentryGuard where
  dsn : String

/-- Model of the `Telemetry` facade struct (src/telemetry.rs). -/
structure Telemetry where
  app_name : String
  app_version : String
  config : TelemetryConfig
  posthog : Option PostHogClient
  sentry_guard : Option SentryGuard

/-- Model of a posthog `Event`: name, distinct id and a property map.
`insert_prop` on a `serde_json::Value` cannot fail to serialize, so it is
modelled as total map insertion. -/
structure Event where
  name : String
  distinct_id : String
  properties : List (String × Value)

/-- `Event::new`. -/
def Event.new (name distinct_id : String) : Event := ⟨name, distinct_id, []⟩

/-- `Event::insert_prop`. -/
def Event.insert_prop (e : Event) (k : String) (v : Value) : Event :=
  { e with properties := mapInsert e.properties k v }

/-- Model of a posthog `Exception`, built from an error's description. -/
structure PosthogException where
  error_msg : String
  distinct_id : String
  properties : List (String × Value)

/-- One observable call into an upstream collector. -/
inductive CollectorCall where
  | posthogCapture (e : Event)
  | posthogCaptureException (e : PosthogException)
  | sentryCaptureError (msg : String)

/-- The behaviour of the excluded collector transports: whether each capture
call succeeds, carrying the error message otherwise. -/
structure CollectorEnv where
  captureResult : Event → Except String Unit
  captureExceptionResult : PosthogException → Except String Unit

/-- `Telemetry::add_posthog_default_props` (src/telemetry.rs), the one shared
routine for both the event and the error path: insert the four default fields
in order.  The ambient constants `std::env::consts::OS` and
`env!("CARGO_PKG_VERSION")` are made explicit parameters `os` and
`crate_version`. -/
def addPosthogDefaultProps (props : List (String × Value))
    (app_name app_version os crate_version : String) : List (String × Value) :=
  mapInsert
    (mapInsert
      (mapInsert
        (mapInsert props ("app") (.str app_name))
        ("app_version") (.str app_version))
      ("platform") (.str os))
    ("zksync_telemetry_version") (.str crate_version)

/-- `Telemetry::new` (src/telemetry.rs).  The result of
`TelemetryConfig::new(config_name, custom_config_path)` — config.rs is not
under src/ — is passed in as `configResult`; the `?` on it is modelled by the
first match.  When the config is enabled and a posthog key is supplied, the
code builds client options (setting `api_key`, `default_distinct_id`,
`enable_panic_capturing = sentry_dsn.is_none()` and the panic-exception hook)
and calls `.expect(...)` on the build — the only panic site; when a sentry
DSN is supplied it initializes sentry and keeps the guard.  When the config
is disabled neither handle is created. -/
def Telemetry.new (app_name app_version : String)
    (configResult : Except TelemetryError TelemetryConfig)
    (posthog_key : Option String) (sentry_dsn : Option String) :
    Outcome Telemetry :=
  match configResult with
  | .error e => .err e
  | .ok config =>
    if config.enabled then
      let posthogRes : Outcome (Option PostHogClient) :=
        match posthog_key with
        | some key =>
          let builder : PostHogClientOptionsBuilder :=
            { api_key := some key
              default_distinct_id := some config.instance_id
              enable_panic_capturing := some sentry_dsn.isNone
              on_panic_exception_set := true }
          match builder.build with
          | some opts => .ok (some ⟨opts⟩)
          | none => .panicked ("Failed to build posthog client options")
        | none => .ok none
      match posthogRes with
      | .panicked m => .panicked m
      | .err e => .err e
      | .ok posthog =>
        .ok { app_name := app_name, app_version := app_version, config := config,
              posthog := posthog,
              sentry_guard := sentry_dsn.map (fun dsn => ⟨dsn⟩) }
    else
      .ok { app_name := app_name, app_version := app_version, config := config,
            posthog := none, sentry_guard := none }

/-- The event `Telemetry::track_event` builds before injecting defaults:
`Event::new(event_name, instance_id)` followed by one `insert_prop` per entry
of the caller properties' root object (a non-object root contributes
nothing). -/
def Telemetry.callerEvent (t : Telemetry) (event_name : String)
    (properties : TelemetryProps) : Event :=
  let event0 := Event.new event_name t.config.instance_id
  match properties.to_map with
  | some props_map =>
    props_map.foldl (fun (e : Event) (kv : String × Value) => e.insert_prop kv.1 kv.2) event0
  | none => event0

/-- The full outgoing event of `Telemetry::track_event`: the caller event with
the four default fields inserted last. -/
def Telemetry.buildEvent (t : Telemetry) (os crate_version event_name : String)
    (properties : TelemetryProps) : Event :=
  let e := t.callerEvent event_name properties
  { e with
    properties :=
      addPosthogDefaultProps e.properties t.app_name t.app_version os
        crate_version }

/-- `Telemetry::track_event` (src/telemetry.rs): return `Ok` at once when
disabled; otherwise, when a posthog client is present, build the outgoing
event and capture it, mapping a transport failure to `SendError`.  The second
component is the trace of collector calls. -/
def Telemetry.track_event (t : Telemetry) (env : CollectorEnv)
    (os crate_version : String) (event_name : String)
    (properties : TelemetryProps) : Outcome Unit × List CollectorCall :=
  if !t.config.enabled then
    (.ok (), [])
  else
    match t.posthog with
    | some _client =>
      let event2 := t.buildEvent os crate_version event_name properties
      match env.captureResult event2 with
      | .ok _ => (.ok (), [.posthogCapture event2])
      | .error e => (.err (.sendError e), [.posthogCapture event2])
    | none => (.ok (), [])

/-- The outgoing exception of `Telemetry::track_error` on the posthog path:
`Exception::new(error, instance_id)` with the four default fields inserted. -/
def Telemetry.buildException (t : Telemetry) (os crate_version error_msg : String) :
    PosthogException :=
  let ex0 : PosthogException := ⟨error_msg, t.config.instance_id, []⟩
  { ex0 with
    properties :=
      addPosthogDefaultProps ex0.properties t.app_name t.app_version os
        crate_version }

/-- `Telemetry::track_error` (src/telemetry.rs): return `Ok` at once when
disabled; when the sentry guard is present, call `sentry::capture_error`
(fire-and-forget) and nothing else; otherwise, when a posthog client is
present, build an exception with the default fields and capture it; with
neither handle, succeed with no calls.  The error argument is represented by
its description string. -/
def Telemetry.track_error (t : Telemetry) (env : CollectorEnv)
    (os crate_version : String) (error_msg : String) :
    Outcome Unit × List CollectorCall :=
  if !t.config.enabled then
    (.ok (), [])
  else
    if t.sentry_guard.isSome then
      (.ok (), [.sentryCaptureError error_msg])
    else
      match t.posthog with
      | some _client =>
        let ex1 := t.buildException os crate_version error_msg
        match env.captureExceptionResult ex1 with
        | .ok _ => (.ok (), [.posthogCaptureException ex1])
        | .error e => (.err (.sendError e), [.posthogCaptureException ex1])
      | none => (.ok (), [])

/-- Result of `init_telemetry` (src/telemetry.rs): success, a failure of
`Telemetry::new` (propagated by `?`), the "Telemetry is already set" error
from `OnceCell::set`, or a panic propagated from `Telemetry::new`. -/
inductive InitResult where
  | ok
  | newFailed (e : TelemetryError)
  | alreadySet (msg : String)
  | panicked (msg : String)

/-- `init_telemetry` over the state of the `TELEMETRY` once-cell: construct
the facade (its result is `newResult`), then `TELEMETRY.set`, which stores
the value only when the cell is empty and otherwise reports
"Telemetry is already set" leaving the cell unchanged. -/
def init_telemetry (st : Option Telemetry) (newResult : Outcome Telemetry) :
    InitResult × Option Telemetry :=
  match newResult with
  | .panicked m => (.panicked m, st)
  | .err e => (.newFailed e, st)
  | .ok t =>
    match st with
    | some _ => (.alreadySet ("Telemetry is already set"), st)
    | none => (.ok, some t)

/-- `get_telemetry`: read the once-cell, `none` when it was never set. -/
def get_telemetry (st : Option Telemetry) : Option Telemetry := st

/-- Run a sequence of `init_telemetry` calls, threading the cell state. -/
def runInits (st : Option Telemetry) : List (Outcome Telemetry) → Option Telemetry
  | [] => st
  | r :: rs => runInits (init_telemetry st r).2 rs

/-! ### Concrete sample values used to instantiate the theorems -/

/-- A collector environment whose transports always succeed. -/
def okEnv : CollectorEnv := ⟨fun _ => .ok (), fun _ => .ok ()⟩

/-- A sample posthog client handle. -/
def sampleClient : PostHogClient := ⟨⟨("key"), some ("id"), true, true⟩⟩

/-- An enabled facade with both collectors configured. -/
def enabledBoth : Telemetry :=
  ⟨("myapp"), ("1.0"), ⟨true, ("id")⟩, some sampleClient, some ⟨("dsn")⟩⟩

/-- An enabled facade with only the posthog collector configured. -/
def enabledPosthogOnly : Telemetry :=
  ⟨("myapp"), ("1.0"), ⟨true, ("id")⟩, some sampleClient, none⟩

/-- An enabled facade with no collector configured. -/
def enabledNeither : Telemetry :=
  ⟨("myapp"), ("1.0"), ⟨true, ("id")⟩, none, none⟩

/-- A disabled facade with no collector handles. -/
def disabledFacade : Telemetry :=
  ⟨("myapp"), ("1.0"), ⟨false, ("id")⟩, none, none⟩

/-! ### Map lemmas -/

theorem mapLookup_mapInsert_self (m : List (String × Value)) (k : String) (v : Value) :
    mapLookup (mapInsert m k v) k = some v := by
  induction m with
  | nil => simp [mapInsert, mapLookup]
  | cons hd tl ih =>
    obtain ⟨k₀, v₀⟩ := hd
    by_cases h : k₀ = k
    · simp [mapInsert, mapLookup, h]
    · simp [mapInsert, mapLookup, h, ih]

theorem mapLookup_mapInsert_ne (m : List (String × Value)) (k k' : String) (v : Value)
    (h : k' ≠ k) :
    mapLookup (mapInsert m k v) k' = mapLookup m k' := by
  induction m with
  | nil => simp [mapInsert, mapLookup, Ne.symm h]
  | cons hd tl ih =>
    obtain ⟨k₀, v₀⟩ := hd
    by_cases h0 : k₀ = k
    · subst h0
      simp [mapInsert, mapLookup, Ne.symm h]
    · by_cases h1 : k₀ = k'
      · simp [mapInsert, mapLookup, h0, h1, h]
      · simp [mapInsert, mapLookup, h0, h1, ih]

theorem mapLookup_addDefaults (props : List (String × Value))
    (an av os cv : String) :
    mapLookup (addPosthogDefaultProps props an av os cv) ("app") = some (.str an) ∧
    mapLookup (addPosthogDefaultProps props an av os cv) ("app_version") = some (.str av) ∧
    mapLookup (addPosthogDefaultProps props an av os cv) ("platform") = some (.str os) ∧
    mapLookup (addPosthogDefaultProps props an av os cv) ("zksync_telemetry_version") = some (.str cv) := by
  unfold addPosthogDefaultProps
  refine ⟨?_, ?_, ?_, ?_⟩
  · rw [mapLookup_mapInsert_ne _ _ _ _ (by decide),
      mapLookup_mapInsert_ne _ _ _ _ (by decide),
      mapLookup_mapInsert_ne _ _ _ _ (by decide),
      mapLookup_mapInsert_self]
  · rw [mapLookup_mapInsert_ne _ _ _ _ (by decide),
      mapLookup_mapInsert_ne _ _ _ _ (by decide),
      mapLookup_mapInsert_self]
  · rw [mapLookup_mapInsert_ne _ _ _ _ (by decide),
      mapLookup_mapInsert_self]
  · rw [mapLookup_mapInsert_self]

/-! ### Claim theorems -/

/-- C4: for every builder state, key and converted value, `insert(key, None)`
leaves the builder's tree completely unchanged, while `insert(key, Some v)`
makes the key present in the root object, mapped to the converted value. -/
theorem insert_none_noop_insert_some_present (p : TelemetryProps) (key : String)
    (v : TelemetryProps) :
    p.insert key none = p ∧
    ∃ m, (p.insert key (some v)).inner = Value.obj m ∧
      mapLookup m key = some v.inner := by
  refine ⟨rfl, ?_⟩
  obtain ⟨inner⟩ := p
  cases inner with
  | obj m => exact ⟨mapInsert m key v.inner, rfl, mapLookup_mapInsert_self m key v.inner⟩
  | null => exact ⟨[(key, v.inner)], rfl, by simp [mapLookup]⟩
  | bool b => exact ⟨[(key, v.inner)], rfl, by simp [mapLookup]⟩
  | num n => exact ⟨[(key, v.inner)], rfl, by simp [mapLookup]⟩
  | str s => exact ⟨[(key, v.inner)], rfl, by simp [mapLookup]⟩
  | arr es => exact ⟨[(key, v.inner)], rfl, by simp [mapLookup]⟩

/-- C5: for every builder whose root is a scalar or an array, the next
`insert` yields a root object containing exactly the one inserted key, the
prior non-object root discarded. -/
theorem insert_coerces_non_object_root (p : TelemetryProps) (key : String)
    (v : TelemetryProps) (h : p.inner.isScalarOrArray = true) :
    p.insert key (some v) = ⟨.obj [(key, v.inner)]⟩ := by
  obtain ⟨inner⟩ := p
  cases inner with
  | null => simp [Value.isScalarOrArray] at h
  | obj m => simp [Value.isScalarOrArray] at h
  | bool b => rfl
  | num n => rfl
  | str s => rfl
  | arr es => rfl

/-- C5 witness: coercing a bare-string root. -/
theorem insert_coerces_non_object_root_witness :
    TelemetryProps.insert (TelemetryProps.from_string ("hello")) ("k")
      (some (TelemetryProps.from_bool true)) = ⟨.obj [(("k"), .bool true)]⟩ :=
  insert_coerces_non_object_root (TelemetryProps.from_string ("hello")) ("k")
    (TelemetryProps.from_bool true) rfl

/-- C9: `from_array` produces an array whose elements are the independently
converted inputs in exactly the input order: lengths match and the element at
every index is the conversion of the input at that index. -/
theorem from_array_preserves_order (conv : α → TelemetryProps) (vs : List α)
    (i : Nat) (v : α) (h : vs[i]? = some v) :
    ∃ elems, (TelemetryProps.from_array conv vs).inner = Value.arr elems ∧
      elems.length = vs.length ∧ elems[i]? = some ((conv v).inner) := by
  refine ⟨vs.map (fun w => (conv w).inner), rfl, by simp, ?_⟩
  simp [List.getElem?_map, h]

/-- C9 witness: a two-element array of already-converted values. -/
theorem from_array_preserves_order_witness :
    [TelemetryProps.from_bool true, TelemetryProps.from_number 2][1]? =
      some (TelemetryProps.from_number 2) ∧
    ∃ elems,
      (TelemetryProps.from_array (fun p => p)
        [TelemetryProps.from_bool true, TelemetryProps.from_number 2]).inner =
          Value.arr elems ∧
      elems.length = 2 ∧ elems[1]? = some (TelemetryProps.from_number 2).inner :=
  ⟨rfl, from_array_preserves_order (fun p => p)
    [TelemetryProps.from_bool true, TelemetryProps.from_number 2] 1
    (TelemetryProps.from_number 2) rfl⟩

/-- C10: for a builder whose root is an object, `insert(k, Some v)` leaves the
binding of every other key unchanged and overwrites only the binding of `k`. -/
theorem insert_frames_other_keys (p : TelemetryProps) (m : List (String × Value))
    (k k' : String) (v : TelemetryProps) (hobj : p.inner = Value.obj m)
    (hne : k' ≠ k) :
    ∃ m', (p.insert k (some v)).inner = Value.obj m' ∧
      mapLookup m' k = some v.inner ∧ mapLookup m' k' = mapLookup m k' := by
  obtain ⟨inner⟩ := p
  cases hobj
  exact ⟨mapInsert m k v.inner, rfl, mapLookup_mapInsert_self m k v.inner,
    mapLookup_mapInsert_ne m k k' v.inner hne⟩

/-- C10 witness: overwriting key a leaves key b bound as before. -/
theorem insert_frames_other_keys_witness :
    ∃ m', (TelemetryProps.insert ⟨.obj [(("a"), .num 1), (("b"), .num 2)]⟩ ("a")
        (some (TelemetryProps.from_number 3))).inner = Value.obj m' ∧
      mapLookup m' ("a") = some (TelemetryProps.from_number 3).inner ∧
      mapLookup m' ("b") = mapLookup [(("a"), .num 1), (("b"), .num 2)] ("b") :=
  insert_frames_other_keys ⟨.obj [(("a"), .num 1), (("b"), .num 2)]⟩
    [(("a"), .num 1), (("b"), .num 2)] ("a") ("b")
    (TelemetryProps.from_number 3) rfl (by decide)

/-- C2: the registry is set-once: `get` before any `init` returns `none`; the
first `init` on the empty cell stores the facade and returns ok; any later
`init` returns the already-set error and leaves the stored facade unchanged,
so `get` keeps returning the first stored facade after any further calls. -/
theorem registry_set_once :
    get_telemetry (none : Option Telemetry) = none ∧
    (∀ t : Telemetry, init_telemetry none (.ok t) = (.ok, some t)) ∧
    (∀ t t' : Telemetry,
      init_telemetry (some t) (.ok t') =
        (.alreadySet ("Telemetry is already set"), some t)) ∧
    (∀ (t : Telemetry) (r : Outcome Telemetry),
      (init_telemetry (some t) r).2 = some t) ∧
    (∀ (t : Telemetry) (rs : List (Outcome Telemetry)),
      get_telemetry (runInits (some t) rs) = some t) := by
  refine ⟨rfl, fun t => rfl, fun t t' => rfl, fun t r => by cases r <;> rfl, ?_⟩
  intro t rs
  induction rs with
  | nil => rfl
  | cons r rs ih =>
    show get_telemetry (runInits (init_telemetry (some t) r).2 rs) = some t
    have h2 : (init_telemetry (some t) r).2 = some t := by cases r <;> rfl
    rw [h2]
    exact ih

/-- C1: a facade constructed from a config with `enabled = false` has no
posthog client and no sentry guard, and every `track_event` / `track_error`
call on it returns success immediately with an empty collector-call trace. -/
theorem disabled_facade_noop (an av : String) (cfg : TelemetryConfig)
    (pk sd : Option String) (env : CollectorEnv) (os cv name msg : String)
    (props : TelemetryProps) (t : Telemetry)
    (hdis : cfg.enabled = false)
    (hnew : Telemetry.new an av (.ok cfg) pk sd = .ok t) :
    t.posthog = none ∧ t.sentry_guard = none ∧
    t.track_event env os cv name props = (.ok (), []) ∧
    t.track_error env os cv msg = (.ok (), []) := by
  unfold Telemetry.new at hnew
  dsimp only at hnew
  rw [hdis] at hnew
  simp at hnew
  subst hnew
  refine ⟨rfl, rfl, ?_, ?_⟩
  · unfold Telemetry.track_event
    simp [hdis]
  · unfold Telemetry.track_error
    simp [hdis]

/-- C1 witness: a concrete disabled construction and its no-op calls. -/
theorem disabled_facade_noop_witness :
    disabledFacade.posthog = none ∧ disabledFacade.sentry_guard = none ∧
    disabledFacade.track_event okEnv ("linux") ("0.1.0") ("x")
      TelemetryProps.new = (.ok (), []) ∧
    disabledFacade.track_error okEnv ("linux") ("0.1.0") ("e") = (.ok (), []) :=
  disabled_facade_noop ("myapp") ("1.0") ⟨false, ("id")⟩ none none okEnv
    ("linux") ("0.1.0") ("x") ("e") TelemetryProps.new disabledFacade rfl rfl

/-- C3: no public facade call panics on any caller-supplied input: `new`,
`track_event` and `track_error` never produce the panic outcome (the one
panic site, the `expect` on the posthog options build, is unreachable because
the code always sets the required api key). -/
theorem public_api_never_panics (an av : String)
    (configResult : Except TelemetryError TelemetryConfig)
    (pk sd : Option String) (t : Telemetry) (env : CollectorEnv)
    (os cv name msg : String) (props : TelemetryProps) :
    (Telemetry.new an av configResult pk sd).isPanicked = false ∧
    (t.track_event env os cv name props).1.isPanicked = false ∧
    (t.track_error env os cv msg).1.isPanicked = false := by
  refine ⟨?_, ?_, ?_⟩
  · unfold Telemetry.new
    cases configResult with
    | error e => rfl
    | ok cfg =>
      by_cases h : cfg.enabled
      · cases pk <;> simp [h, PostHogClientOptionsBuilder.build, Outcome.isPanicked]
      · simp [h, Outcome.isPanicked]
  · unfold Telemetry.track_event
    by_cases h : t.config.enabled
    · cases hp : t.posthog with
      | none => simp [h, hp, Outcome.isPanicked]
      | some c =>
        simp only [h, hp, Bool.not_true]
        cases hc : env.captureResult (t.buildEvent os cv name props) <;>
          simp [hc, Outcome.isPanicked]
    · simp [h, Outcome.isPanicked]
  · unfold Telemetry.track_error
    by_cases h : t.config.enabled
    · by_cases hs : t.sentry_guard.isSome
      · simp [h, hs, Outcome.isPanicked]
      · cases hp : t.posthog with
        | none => simp [h, hs, hp, Outcome.isPanicked]
        | some c =>
          simp only [h, hs, hp, Bool.not_true]
          cases hc : env.captureExceptionResult (t.buildException os cv msg) <;>
            simp [hc, Outcome.isPanicked]
    · simp [h, Outcome.isPanicked]

/-- C6: on an enabled facade with a posthog client, `track_event` captures
exactly the built event, and because the four default fields are inserted
after all caller-supplied properties, looking any of them up in the outgoing
payload yields the default value, whatever the caller supplied. -/
theorem track_event_defaults_win (t : Telemetry) (env : CollectorEnv)
    (os cv name : String) (props : TelemetryProps) (c : PostHogClient)
    (hen : t.config.enabled = true) (hph : t.posthog = some c) :
    (t.track_event env os cv name props).2 =
      [CollectorCall.posthogCapture (t.buildEvent os cv name props)] ∧
    mapLookup (t.buildEvent os cv name props).properties ("app") =
      some (.str t.app_name) ∧
    mapLookup (t.buildEvent os cv name props).properties ("app_version") =
      some (.str t.app_version) ∧
    mapLookup (t.buildEvent os cv name props).properties ("platform") =
      some (.str os) ∧
    mapLookup (t.buildEvent os cv name props).properties ("zksync_telemetry_version") =
      some (.str cv) := by
  have hprops : (t.buildEvent os cv name props).properties =
      addPosthogDefaultProps (t.callerEvent name props).properties t.app_name
        t.app_version os cv := rfl
  obtain ⟨h1, h2, h3, h4⟩ :=
    mapLookup_addDefaults (t.callerEvent name props).properties t.app_name
      t.app_version os cv
  refine ⟨?_, ?_, ?_, ?_, ?_⟩
  · unfold Telemetry.track_event
    simp only [hen, hph, Bool.not_true]
    cases hc : env.captureResult (t.buildEvent os cv name props) <;> simp [hc]
  · rw [hprops]; exact h1
  · rw [hprops]; exact h2
  · rw [hprops]; exact h3
  · rw [hprops]; exact h4

/-- C6 witness: even a caller property named app is overridden by the default. -/
theorem track_event_defaults_win_witness :
    ((enabledPosthogOnly.track_event okEnv ("linux") ("0.1.0") ("x")
        (TelemetryProps.insert TelemetryProps.new ("app")
          (some (TelemetryProps.from_string ("evil"))))).2 =
      [CollectorCall.posthogCapture
        (enabledPosthogOnly.buildEvent ("linux") ("0.1.0") ("x")
          (TelemetryProps.insert TelemetryProps.new ("app")
            (some (TelemetryProps.from_string ("evil")))))]) ∧
    mapLookup
      (enabledPosthogOnly.buildEvent ("linux") ("0.1.0") ("x")
        (TelemetryProps.insert TelemetryProps.new ("app")
          (some (TelemetryProps.from_string ("evil"))))).properties ("app") =
      some (.str ("myapp")) ∧
    mapLookup
      (enabledPosthogOnly.buildEvent ("linux") ("0.1.0") ("x")
        (TelemetryProps.insert TelemetryProps.new ("app")
          (some (TelemetryProps.from_string ("evil"))))).properties ("app_version") =
      some (.str ("1.0")) ∧
    mapLookup
      (enabledPosthogOnly.buildEvent ("linux") ("0.1.0") ("x")
        (TelemetryProps.insert TelemetryProps.new ("app")
          (some (TelemetryProps.from_string ("evil"))))).properties ("platform") =
      some (.str ("linux")) ∧
    mapLookup
      (enabledPosthogOnly.buildEvent ("linux") ("0.1.0") ("x")
        (TelemetryProps.insert TelemetryProps.new ("app")
          (some (TelemetryProps.from_string ("evil"))))).properties ("zksync_telemetry_version") =
      some (.str ("0.1.0")) :=
  track_event_defaults_win enabledPosthogOnly okEnv ("linux") ("0.1.0") ("x")
    (TelemetryProps.insert TelemetryProps.new ("app")
      (some (TelemetryProps.from_string ("evil")))) sampleClient rfl rfl

/-- C7: on an enabled facade, `track_error` routes exclusively to sentry when
the sentry guard is present (the trace is exactly one sentry call, no posthog
exception); to posthog when only the posthog client is present; and succeeds
with no collector call when neither is present. -/
theorem track_error_routing (t : Telemetry) (env : CollectorEnv)
    (os cv msg : String) (hen : t.config.enabled = true) :
    (∀ g, t.sentry_guard = some g →
      t.track_error env os cv msg = (.ok (), [.sentryCaptureError msg])) ∧
    (t.sentry_guard = none → ∀ c, t.posthog = some c →
      (t.track_error env os cv msg).2 =
        [.posthogCaptureException (t.buildException os cv msg)]) ∧
    (t.sentry_guard = none → t.posthog = none →
      t.track_error env os cv msg = (.ok (), [])) := by
  refine ⟨?_, ?_, ?_⟩
  · intro g hg
    unfold Telemetry.track_error
    simp [hen, hg]
  · intro hg c hc
    unfold Telemetry.track_error
    simp only [hen, hg, hc, Bool.not_true, Option.isSome_none]
    cases hcap : env.captureExceptionResult (t.buildException os cv msg) <;>
      simp [hcap]
  · intro hg hc
    unfold Telemetry.track_error
    simp [hen, hg, hc]

/-- C7 witness: the three routing cases at concrete facades. -/
theorem track_error_routing_witness :
    (enabledBoth.track_error okEnv ("linux") ("0.1.0") ("boom") =
      (.ok (), [.sentryCaptureError ("boom")])) ∧
    ((enabledPosthogOnly.track_error okEnv ("linux") ("0.1.0") ("boom")).2 =
      [.posthogCaptureException
        (enabledPosthogOnly.buildException ("linux") ("0.1.0") ("boom"))]) ∧
    (enabledNeither.track_error okEnv ("linux") ("0.1.0") ("boom") =
      (.ok (), [])) :=
  ⟨(track_error_routing enabledBoth okEnv ("linux") ("0.1.0") ("boom") rfl).1
      ⟨("dsn")⟩ rfl,
   (track_error_routing enabledPosthogOnly okEnv ("linux") ("0.1.0") ("boom")
      rfl).2.1 rfl sampleClient rfl,
   (track_error_routing enabledNeither okEnv ("linux") ("0.1.0") ("boom")
      rfl).2.2 rfl rfl⟩

/-- C8: on an enabled facade, a properties tree whose root is not an object
never causes a panic: the payload is coerced so that only the four default
fields are sent, and the trace is the single capture of that defaults-only
event (or empty when no posthog client is configured). -/
theorem track_event_non_object_root (t : Telemetry) (env : CollectorEnv)
    (os cv name : String) (props : TelemetryProps)
    (hen : t.config.enabled = true)
    (hno : props.to_map = (none : Option (List (String × Value)))) :
    (t.track_event env os cv name props).1.isPanicked = false ∧
    (t.buildEvent os cv name props).properties =
      [(("app"), .str t.app_name), (("app_version"), .str t.app_version),
       (("platform"), .str os), (("zksync_telemetry_version"), .str cv)] ∧
    (t.posthog = none → t.track_event env os cv name props = (.ok (), [])) ∧
    (∀ c, t.posthog = some c →
      (t.track_event env os cv name props).2 =
        [.posthogCapture (t.buildEvent os cv name props)]) := by
  refine ⟨?_, ?_, ?_, ?_⟩
  · unfold Telemetry.track_event
    by_cases hp : t.posthog = none
    · simp [hen, hp, Outcome.isPanicked]
    · obtain ⟨c, hc⟩ := Option.ne_none_iff_exists.mp hp
      simp only [hen, ← hc, Bool.not_true]
      cases hcap : env.captureResult (t.buildEvent os cv name props) <;>
        simp [hcap, Outcome.isPanicked]
  · unfold Telemetry.buildEvent Telemetry.callerEvent
    rw [hno]
    rfl
  · intro hp
    unfold Telemetry.track_event
    simp [hen, hp]
  · intro c hc
    unfold Telemetry.track_event
    simp only [hen, hc, Bool.not_true]
    cases hcap : env.captureResult (t.buildEvent os cv name props) <;>
      simp [hcap]

/-- C8 witness: a bare-string properties root on an enabled facade. -/
theorem track_event_non_object_root_witness :
    ((enabledPosthogOnly.track_event okEnv ("linux") ("0.1.0") ("x")
        (TelemetryProps.from_string ("s"))).1.isPanicked = false) ∧
    (enabledPosthogOnly.buildEvent ("linux") ("0.1.0") ("x")
        (TelemetryProps.from_string ("s"))).properties =
      [(("app"), .str ("myapp")), (("app_version"), .str ("1.0")),
       (("platform"), .str ("linux")), (("zksync_telemetry_version"), .str ("0.1.0"))] ∧
    (enabledPosthogOnly.posthog = none →
      enabledPosthogOnly.track_event okEnv ("linux") ("0.1.0") ("x")
        (TelemetryProps.from_string ("s")) = (.ok (), [])) ∧
    (∀ c, enabledPosthogOnly.posthog = some c →
      (enabledPosthogOnly.track_event okEnv ("linux") ("0.1.0") ("x")
          (TelemetryProps.from_string ("s"))).2 =
        [.posthogCapture (enabledPosthogOnly.buildEvent ("linux") ("0.1.0") ("x")
          (TelemetryProps.from_string ("s")))]) :=
  track_event_non_object_root enabledPosthogOnly okEnv ("linux") ("0.1.0") ("x")
    (TelemetryProps.from_string ("s")) rfl rfl

end ZkTelemetry
